import Mathlib

/-!
Verification development for the OHTTP privacy-gateway server
(privacy-gateway-server-go). The Go sources are shallowly embedded:
pure helpers become Lean functions, the per-request handler state
machine becomes explicit state passing over a response-writer state,
the per-request metrics bag becomes a list of fired labels, and the
external library calls (HPKE decapsulation, binary-HTTP codecs, the
outbound HTTP client, random number generation) become explicit
oracle parameters so every theorem quantifies over their behaviour.
-/

/-- The per-request metrics bag: the ordered list of labels fired on it.
Mirrors `MockMetrics.resultLabels` from the test file, which records each
label passed to `Metrics.Fire`. -/
abbrev Metrics := List String

/-- `Metrics.Fire`: record one result label in the bag. -/
def fireMetric (m : Metrics) (label : String) : Metrics := m ++ [label]

/-- `MockMetrics.ResponseStatus(prefix, status)` fires the label
`prefix + "_response_status_" + status`. -/
def responseStatus (m : Metrics) (pfx : String) (status : Nat) : Metrics :=
  fireMetric m (pfx ++ "_response_status_" ++ toString status)

/-- A chunk written to the HTTP response body: either raw bytes
(`w.Write(packedResponse)`) or an error-message string (`http.Error`). -/
inductive Chunk where
  | raw (bytes : List Nat)
  | msg (text : String)
deriving DecidableEq, Repr

/-- The observable state of an `http.ResponseWriter` (as recorded by
`httptest.ResponseRecorder`): the first status code written, the headers
set before the first write, and the body chunks in write order. -/
structure ResponseState where
  status : Option Nat
  headers : List (String × String)
  body : List Chunk
deriving DecidableEq, Repr

/-- A fresh response writer, before the handler runs. -/
def ResponseState.empty : ResponseState := ⟨none, [], []⟩

/-- `w.Header().Set(k, v)`: headers take effect only before the first
write of the status/body (later mutations are ignored by net/http). -/
def setHeader (w : ResponseState) (k v : String) : ResponseState :=
  if w.status.isNone then { w with headers := w.headers ++ [(k, v)] } else w

/-- `w.WriteHeader(code)`: only the first status write takes effect;
a superfluous second call is ignored. -/
def writeHeader (w : ResponseState) (code : Nat) : ResponseState :=
  if w.status.isNone then { w with status := some code } else w

/-- `w.Write(b)`: an implicit `WriteHeader(200)` if no status was
written yet, then append the chunk to the body. -/
def writeBody (w : ResponseState) (c : Chunk) : ResponseState :=
  let w1 := writeHeader w 200
  { w1 with body := w1.body ++ [c] }

/-- Look up a header value set on the response (first match). -/
def getHeader (w : ResponseState) (k : String) : Option String :=
  (w.headers.find? (fun p => p.1 == k)).map (fun p => p.2)

/-- `http.StatusText` for the codes this server uses. -/
def statusText : Nat → String
  | 200 => "OK"
  | 400 => "Bad Request"
  | 401 => "Unauthorized"
  | 403 => "Forbidden"
  | 500 => "Internal Server Error"
  | _ => ""

/-- The sentinel error values of part_001 (ErrConfigMismatch,
ErrEncapsulation, ErrPayloadMarshalling, ErrGatewayTargetForbidden,
ErrGatewayInternalServer), plus a constructor for the raw transport
errors produced by `client.Do`, which are distinct from every sentinel. -/
inductive GoError where
  | ConfigMismatch
  | Encapsulation
  | PayloadMarshalling
  | GatewayTargetForbidden
  | GatewayInternalServer
  | TransportError (text : String)
deriving DecidableEq, Repr

/-- `ErrEncapsulationToGatewayStatusCode` (part_001 lines 35-44):
decapsulation/encapsulation errors become the gateway response status. -/
def ErrEncapsulationToGatewayStatusCode : GoError → Nat
  | GoError.ConfigMismatch => 401
  | GoError.Encapsulation => 400
  | _ => 400

/-- `payloadErrorToPayloadStatusCode` (part_001 lines 47-58):
application-tier errors become encapsulated payload statuses. -/
def payloadErrorToPayloadStatusCode : GoError → Nat
  | GoError.PayloadMarshalling => 400
  | GoError.GatewayTargetForbidden => 403
  | GoError.GatewayInternalServer => 500
  | _ => 400

/-- A stored private configuration: key ID plus the HPKE algorithm
triple (the private key itself plays no role in the claims). -/
structure PrivateConfig where
  keyID : Nat
  kemID : Nat
  kdfID : Nat
  aeadID : Nat
deriving DecidableEq, Repr

/-- The parsed header of an encapsulated request: key ID and triple
(`key_id (1B), kem_id (2B), kdf_id (2B), aead_id (2B)`). -/
structure EncapsulatedRequest where
  keyID : Nat
  kemID : Nat
  kdfID : Nat
  aeadID : Nat
deriving DecidableEq, Repr

/-- An encapsulated response, already marshalled to wire bytes. -/
structure EncapsulatedResponse where
  raw : List Nat
deriving DecidableEq, Repr

/-- Modelled from the spec: the ohttp library's config matching
(`gateway.MatchesConfig`), which is not part of this repository.
Per the spec it selects the stored config by exact `key_id` and
returns no match when the KEM/KDF/AEAD triple of the request differs
from the stored config's triple. -/
def matchConfig (configs : List PrivateConfig) (r : EncapsulatedRequest) :
    Option PrivateConfig :=
  match configs.find? (fun c => c.keyID == r.keyID) with
  | none => none
  | some c =>
      if c.kemID == r.kemID && c.kdfID == r.kdfID && c.aeadID == r.aeadID then
        some c
      else
        none

/-- Go constant `hpke.KEM_X25519_HKDF_SHA256` (0x0020). -/
def KEM_X25519_HKDF_SHA256 : Nat := 0x0020

/-- Go constant `hpke.KEM_X25519_KYBER768_DRAFT00` (0x0030). -/
def KEM_X25519_KYBER768_DRAFT00 : Nat := 0x0030

/-- part_000 line 186: `legacyConfigID := uint8((configID - 128) % 255)`.
`configID` is `uint8`, so the subtraction wraps modulo 256 before the
`% 255` reduction: for `k < 256` this is `((k + 256 - 128) % 256) % 255`. -/
def legacyConfigID (configID : Nat) : Nat :=
  ((configID + 256 - 128) % 256) % 255

/-- The key-id formula as the spec states it, read over the integers:
`legacy_key_id = (primary - 128) mod 255`. -/
def legacyKeyIdSpecFormula (configID : Nat) : Int :=
  ((configID : Int) - 128) % 255

/-- part_000 line 187: `seed[len(seed)-1] ^= 0xFF` -- XOR the last byte
of the seed with 0xFF, leaving the other bytes unchanged. -/
def xorLastByte : List Nat → List Nat
  | [] => []
  | [b] => [b ^^^ 0xFF]
  | b :: rest => b :: xorLastByte rest

/-- part_000 lines 183-191: the data fed to
`ohttp.NewConfigFromSeed(legacyConfigID, hpke.KEM_X25519_HKDF_SHA256, ...)`
for the legacy config: (derived key ID, mutated seed, KEM identifier). -/
def deriveLegacyConfig (configID : Nat) (seed : List Nat) :
    Nat × List Nat × Nat :=
  (legacyConfigID configID, xorLastByte seed, KEM_X25519_HKDF_SHA256)

theorem xorLastByte_append (s : List Nat) (b : Nat) :
    xorLastByte (s ++ [b]) = s ++ [b ^^^ 0xFF] := by
  induction s with
  | nil => rfl
  | cons x xs ih =>
      cases xs with
      | nil => rfl
      | cons y ys =>
          simp only [List.cons_append, xorLastByte, List.append_eq] at ih ⊢
          rw [ih]

/-- The decoded inner HTTP request (the fields the handler chain uses:
`req.Host` for the allowlist check). -/
structure InnerRequest where
  host : String
deriving DecidableEq, Repr

/-- The inner HTTP response produced by the outbound fetch. -/
structure InnerResponse where
  statusCode : Nat
deriving DecidableEq, Repr

/-- `FilteredHttpRequestHandler.Handle` (part_001 lines 308-329).
`allowedOrigins` is `none` when the Go map is nil (no allowlist
configured); `clientDo` is the outbound `client.Do` oracle, whose
failures are raw transport errors. -/
def FilteredHttpRequestHandler.Handle
    (allowedOrigins : Option (List String))
    (clientDo : InnerRequest → Except String InnerResponse)
    (req : InnerRequest) (metrics : Metrics) :
    Metrics × Except GoError InnerResponse :=
  let blocked :=
    match allowedOrigins with
    | some origins => !(origins.contains req.host)
    | none => false
  if blocked then
    (fireMetric metrics "request_forbidden",
      Except.error GoError.GatewayTargetForbidden)
  else
    match clientDo req with
    | Except.error e =>
        (fireMetric metrics "request_failed",
          Except.error (GoError.TransportError e))
    | Except.ok resp =>
        (fireMetric metrics "success", Except.ok resp)

/-- `BinaryHTTPAppHandler.Handle` (part_001 lines 261-290).
`unmarshalBinaryRequest` is the `ohttp.UnmarshalBinaryRequest` oracle,
`httpHandler` the inner `HttpRequestHandler`, and `encodeFails` the
oracle for whether `NewBinaryResponseEncoder(e).Encode(resp)` errors.
The handler returns only the error (the response bytes are streamed to
the encapsulated chunk writer). -/
def BinaryHTTPAppHandler.Handle
    (unmarshalBinaryRequest : List Nat → Option InnerRequest)
    (httpHandler : InnerRequest → Metrics → Metrics × Except GoError InnerResponse)
    (encodeFails : InnerResponse → Bool)
    (binaryRequest : List Nat) (metrics : Metrics) :
    Metrics × Option GoError :=
  match unmarshalBinaryRequest binaryRequest with
  | none =>
      (fireMetric metrics "content_decode_failed",
        some GoError.PayloadMarshalling)
  | some req =>
      match httpHandler req metrics with
      | (m1, Except.error err) =>
          if err = GoError.GatewayTargetForbidden then
            (m1, some GoError.GatewayTargetForbidden)
          else
            (m1, some GoError.GatewayInternalServer)
      | (m1, Except.ok resp) =>
          if encodeFails resp then
            (fireMetric m1 "content_encode_failed",
              some GoError.PayloadMarshalling)
          else
            (fireMetric m1 "gateway_payload200", none)

/-- Modelled from the spec: `EchoAppHandler` appears in part_001 only as
commented-out code, though `main` and the tests still reference it. Per
the spec (and the commented source) it fires the success metric and
returns the plaintext unmodified, never failing. -/
def EchoAppHandler.Handle (binaryRequest : List Nat) (metrics : Metrics) :
    Metrics × Except GoError (List Nat) :=
  (fireMetric metrics "success", Except.ok binaryRequest)

/-- The outer HTTP request as the frontend observes it: method, the
`Content-Type` header value (empty string when absent), URL path, and
the body bytes (`none` models a body read error). -/
structure HttpRequest where
  method : String
  contentType : String
  urlPath : String
  body : Option (List Nat)

/-- The `EncapsulationHandler` interface: outer request, parsed
encapsulated request and metrics bag to encapsulated response or error. -/
abbrev EncapHandler :=
  HttpRequest → EncapsulatedRequest → Metrics →
    Metrics × Except GoError EncapsulatedResponse

/-- `DefaultEncapsulationHandler.Handle` (part_001 lines 98-123).
`decap` is the `gateway.DecapsulateRequest` oracle (`none` = HPKE
failure); `appHandler` is the `AppContentHandler`, returning the fired
metrics and an optional error. The success branch of the source refers
to an identifier `binaryResponse` that is not defined anywhere in the
repository, so the sealed response produced there is modelled by the
`sealResp` oracle (`none` = `context.EncapsulateResponse` failure). -/
def DefaultEncapsulationHandler.Handle
    (configs : List PrivateConfig)
    (decap : EncapsulatedRequest → Option (List Nat))
    (appHandler : List Nat → Metrics → Metrics × Option GoError)
    (sealResp : Option EncapsulatedResponse) : EncapHandler :=
  fun _outerRequest encapsulatedReq metrics =>
    if (matchConfig configs encapsulatedReq).isSome = false then
      (fireMetric metrics "config_mismatch",
        Except.error GoError.ConfigMismatch)
    else
      match decap encapsulatedReq with
      | none =>
          (fireMetric metrics "decapsulation_failed",
            Except.error GoError.Encapsulation)
      | some binaryRequest =>
          match appHandler binaryRequest metrics with
          | (m1, some err) => (m1, Except.error err)
          | (m1, none) =>
              match sealResp with
              | none =>
                  (fireMetric m1 "encapsulation_failed",
                    Except.error GoError.Encapsulation)
              | some resp => (m1, Except.ok resp)

/-- `gatewayResource.httpError` (gateway.go lines 43-53): `http.Error`
with either the debug message or the generic status text, then
`metrics.ResponseStatus(metricsPrefix, status)`. -/
def httpError (debugResponse : Bool) (w : ResponseState) (status : Nat)
    (debugMessage : String) (metrics : Metrics) (pfx : String) :
    ResponseState × Metrics :=
  let text := if debugResponse then debugMessage else statusText status
  let w1 := writeBody (writeHeader w status) (Chunk.msg text)
  (w1, responseStatus metrics pfx status)

/-- Lookup in the `encapsulationHandlers` map keyed by URL path. -/
def lookupEncapHandler (handlers : List (String × EncapHandler))
    (path : String) : Option EncapHandler :=
  (handlers.find? (fun p => p.1 == path)).map (fun p => p.2)

/-- `gatewayResource.ohttpGatewayHandler` (gateway.go lines 79-119).
`unmarshal` is the `ohttp.UnmarshalEncapsulatedRequest` oracle. The call
to the (undeclared) `encapsulationErrorToGatewayStatusCode` on line 108
is read as `ErrEncapsulationToGatewayStatusCode` from part_001, the only
such function in the repository. -/
def ohttpGatewayHandler (debugResponse : Bool)
    (handlers : List (String × EncapHandler))
    (unmarshal : List Nat → Option EncapsulatedRequest)
    (w : ResponseState) (r : HttpRequest) (metrics : Metrics) :
    ResponseState × Metrics :=
  match lookupEncapHandler handlers r.urlPath with
  | none => httpError debugResponse w 400 "Unknown handler" metrics r.method
  | some encapHandler =>
      match r.body with
      | none =>
          let m := fireMetric metrics "invalid_content"
          httpError debugResponse w 400 "Reading request body failed" m r.method
      | some encryptedMessageBytes =>
          match unmarshal encryptedMessageBytes with
          | none =>
              let m := fireMetric metrics "invalid_content"
              httpError debugResponse w 400 "Reading request body failed" m
                r.method
          | some encapsulatedReq =>
              match encapHandler r encapsulatedReq metrics with
              | (m1, Except.error err) =>
                  let errorCode := ErrEncapsulationToGatewayStatusCode err
                  httpError debugResponse w errorCode (statusText errorCode)
                    m1 r.method
              | (m1, Except.ok encapsulatedResp) =>
                  let w1 := setHeader w "Content-Type" "message/ohttp-res"
                  let w2 := setHeader w1 "Connection" "Keep-Alive"
                  let w3 := writeBody w2 (Chunk.raw encapsulatedResp.raw)
                  (w3, responseStatus m1 r.method 200)

/-- `gatewayResource.ohttpChunkedGatewayHandler` (gateway.go lines
121-123): a stub that discards its arguments and does nothing. -/
def ohttpChunkedGatewayHandler (w : ResponseState) (_r : HttpRequest)
    (metrics : Metrics) : ResponseState × Metrics :=
  (w, metrics)

/-- `gatewayResource.gatewayHandler` (gateway.go lines 55-77). A fresh
metrics bag is created for the request. Note that the content-type
switch does not return after dispatching, so control always reaches the
final `invalid_content_type` firing and `httpError` call. -/
def gatewayHandler (debugResponse : Bool)
    (handlers : List (String × EncapHandler))
    (unmarshal : List Nat → Option EncapsulatedRequest)
    (w : ResponseState) (r : HttpRequest) : ResponseState × Metrics :=
  let metrics : Metrics := []
  if r.method ≠ "POST" then
    let m := fireMetric metrics "invalid_method"
    httpError debugResponse w 400 ("Invalid method: " ++ r.method) m r.method
  else
    let step :=
      if r.contentType = "message/ohttp-req" then
        ohttpGatewayHandler debugResponse handlers unmarshal w r metrics
      else if r.contentType = "message/ohttp-chunked-req" then
        ohttpChunkedGatewayHandler w r metrics
      else
        (w, metrics)
    let m2 := fireMetric step.2 "invalid_content_type"
    httpError debugResponse step.1 400
      ("Invalid content type: " ++ r.contentType) m2 r.method

/-- gateway.go constant `twelveHours = 12 * 3600`. -/
def twelveHours : Nat := 12 * 3600

/-- gateway.go constant `twentyFourHours = 24 * 3600`. -/
def twentyFourHours : Nat := 24 * 3600

/-- A stored configuration as seen by the key-discovery endpoints: its
key ID and the marshalled public form (`config.Marshal()`). -/
structure PublicConfig where
  keyID : Nat
  pub : List Nat
deriving DecidableEq, Repr

/-- Modelled from the spec: the ohttp library's `gateway.Config(keyID)`
lookup (not part of this repository), returning the stored config with
that key ID or an error when absent. -/
def gatewayConfigLookup (gw : List PublicConfig) (keyID : Nat) :
    Option PublicConfig :=
  gw.find? (fun c => c.keyID == keyID)

/-- Modelled from the spec: the ohttp library's
`gateway.MarshalConfigs()` (not part of this repository), which
concatenates the public form of every stored config, primary first
(the list order is the construction order, primary first). -/
def marshalConfigs (gw : List PublicConfig) : List Nat :=
  (gw.map (fun c => c.pub)).flatten

/-- `gatewayResource.legacyConfigHandler` (gateway.go lines 125-147).
`randVal` is the value returned by `rand.Intn(twentyFourHours)`. -/
def legacyConfigHandler (debugResponse : Bool) (gw : List PublicConfig)
    (legacyKeyID : Nat) (randVal : Nat) (w : ResponseState)
    (r : HttpRequest) : ResponseState × Metrics :=
  let metrics : Metrics := []
  match gatewayConfigLookup gw legacyKeyID with
  | none =>
      let m := fireMetric metrics "configs_unavailable"
      httpError debugResponse w 500 "Config unavailable" m r.method
  | some config =>
      let maxAge := twelveHours + randVal
      let w1 := setHeader w "Cache-Control"
        ("max-age=" ++ toString maxAge ++ ", private")
      let w2 := writeBody w1 (Chunk.raw config.pub)
      (w2, responseStatus metrics r.method 200)

/-- `gatewayResource.configHandler` (gateway.go lines 149-163).
`randVal` is the value returned by `rand.Intn(twentyFourHours)`. -/
def configHandler (gw : List PublicConfig) (randVal : Nat)
    (w : ResponseState) (r : HttpRequest) : ResponseState × Metrics :=
  let metrics : Metrics := []
  let maxAge := twelveHours + randVal
  let w1 := setHeader w "Cache-Control"
    ("max-age=" ++ toString maxAge ++ ", private")
  let w2 := setHeader w1 "Content-Type" "application/ohttp-keys"
  let w3 := writeBody w2 (Chunk.raw (marshalConfigs gw))
  (w3, responseStatus metrics r.method 200)

/-- C5 counterexample: the claim says the legacy key ID equals
`(k - 128) mod 255`, but at primary key ID 0 the code (uint8 wrap-around
subtraction before the `% 255`) produces 128 while the integer formula
`(0 - 128) mod 255` produces 127. -/
theorem legacy_key_id_formula_fails_at_zero :
    (deriveLegacyConfig 0 [0]).1 = 128 ∧
    legacyKeyIdSpecFormula 0 = 127 ∧
    ((deriveLegacyConfig 0 [0]).1 : Int) ≠ legacyKeyIdSpecFormula 0 := by
  decide

/-- C5 (amended): for every primary key ID `k` and every nonempty seed,
the legacy derivation yields key ID `((k + 128) mod 256) mod 255` (that
is, `k - 128` computed with 8-bit wrap-around and then reduced mod 255,
which coincides with the claimed `(k - 128) mod 255` exactly when
`128 ≤ k < 256`), the primary seed with its last byte XORed with 0xFF,
and the KEM `X25519-HKDF-SHA256`; the derivation is a function of `k`
and the seed, hence deterministic. -/
theorem deriveLegacyConfig_spec (k : Nat) (s : List Nat) (b : Nat) :
    deriveLegacyConfig k (s ++ [b]) =
      (((k + 128) % 256) % 255, s ++ [b ^^^ 0xFF], KEM_X25519_HKDF_SHA256) ∧
    legacyConfigID k < 255 ∧
    (128 ≤ k → k < 256 → legacyConfigID k = (k - 128) % 255) := by
  refine ⟨?_, ?_, ?_⟩
  · simp only [deriveLegacyConfig, legacyConfigID, xorLastByte_append]
    have h : k + 256 - 128 = k + 128 := by omega
    rw [h]
  · exact Nat.mod_lt _ (by norm_num)
  · intro h1 h2
    simp only [legacyConfigID]
    have h : k + 256 - 128 = k + 128 := by omega
    have h3 : (k + 128) % 256 = k - 128 := by omega
    rw [h, h3]

/-- C5 witness: concrete instance of the amended theorem at primary key
ID 130, where the uint8 derivation and the mod-255 reduction agree. -/
theorem deriveLegacyConfig_spec_witness :
    (128 ≤ 130 ∧ 130 < 256) ∧ legacyConfigID 130 = (130 - 128) % 255 := by
  exact ⟨by decide, (deriveLegacyConfig_spec 130 [] 0).2.2 (by decide) (by decide)⟩

/-- C8: the echo application handler returns the plaintext byte string
unchanged as the inner response and never fails (it also fires the
success metric, per the commented-out source). -/
theorem echoAppHandler_returns_input (m : List Nat) (metrics : Metrics) :
    (EchoAppHandler.Handle m metrics).2 = Except.ok m ∧
    (EchoAppHandler.Handle m metrics).1 = fireMetric metrics "success" := by
  exact ⟨rfl, rfl⟩

/-- The pipeline of the repository test
`TestGatewayHandlerProtoHTTPRequestWithForbiddenTarget`, concretely:
a POST of a well-formed encapsulated request to a gateway endpoint,
decapsulating successfully to an inner request whose host
`forbidden.example` is not on the allowlist, so the application tier
fails with `GatewayTargetForbidden`. -/
def forbiddenTargetScenario : ResponseState × Metrics :=
  gatewayHandler false
    [("/gateway",
      DefaultEncapsulationHandler.Handle
        [⟨1, KEM_X25519_KYBER768_DRAFT00, 1, 1⟩]
        (fun _ => some [1, 2])
        (BinaryHTTPAppHandler.Handle
          (fun _ => some ⟨"forbidden.example"⟩)
          (FilteredHttpRequestHandler.Handle (some ["allowed.example"])
            (fun _ => Except.ok ⟨200⟩))
          (fun _ => false))
        (some ⟨[9, 9]⟩))]
    (fun _ => some ⟨1, KEM_X25519_KYBER768_DRAFT00, 1, 1⟩)
    ResponseState.empty
    ⟨"POST", "message/ohttp-req", "/gateway", some [3, 4]⟩

/-- C1 (refuting evaluation): on an application-tier failure
(`GatewayTargetForbidden`) after successful decapsulation, the gateway
does not seal an inner 403 response with outer 200; instead the error
propagates through `EncapsulationFail` to the frontend, which maps it
via the default case of `ErrEncapsulationToGatewayStatusCode` to an
outer 400, writing no sealed response bytes at all. The repository's
own test expects outer 200 with a sealed inner 403 here. -/
theorem appError_shortCircuits_to_outer_400 :
    forbiddenTargetScenario.1.status = some 400 ∧
    forbiddenTargetScenario.1.body =
      [Chunk.msg "Bad Request",
       Chunk.msg "Bad Request"] ∧
    forbiddenTargetScenario.2 =
      ["request_forbidden", "POST_response_status_400",
       "invalid_content_type", "POST_response_status_400"] := by
  decide

/-- A successfully dispatched and handled POST with content type
`message/ohttp-req`: decapsulation succeeds, the application handler
succeeds (firing the success metric), and response sealing succeeds. -/
def successScenario : ResponseState × Metrics :=
  gatewayHandler false
    [("/gateway-echo",
      DefaultEncapsulationHandler.Handle
        [⟨1, KEM_X25519_KYBER768_DRAFT00, 1, 1⟩]
        (fun _ => some [0xCA, 0xFE])
        (fun _ m => (fireMetric m "success", none))
        (some ⟨[9, 9]⟩))]
    (fun _ => some ⟨1, KEM_X25519_KYBER768_DRAFT00, 1, 1⟩)
    ResponseState.empty
    ⟨"POST", "message/ohttp-req", "/gateway-echo", some [3, 4]⟩

/-- C3 (refuting evaluation): because the content-type switch in
`gatewayHandler` does not return after dispatching, even a fully
successful request fires `invalid_content_type` and a second
response-status label (`POST_response_status_400`) after `Success` and
`POST_response_status_200`: the bag receives two outcome labels and two
response-status labels instead of exactly one of each. -/
theorem success_also_fires_invalid_content_type :
    successScenario.1.status = some 200 ∧
    successScenario.2 =
      ["success", "POST_response_status_200",
       "invalid_content_type", "POST_response_status_400"] := by
  decide

/-- C2: for every encapsulated request reaching a default encapsulation
handler: (1) if no stored private config matches, the outer status is
401 and the `config_mismatch` metric fires; (2) if a config matches but
HPKE opening fails, the outer status is 400 and the
`decapsulation_failed` metric fires; (3) a request whose key ID matches
a stored config but whose KEM/KDF/AEAD triple differs yields no match
(hence falls under case 1). -/
theorem encapHandler_mismatch_and_decap_codes
    (debugResponse : Bool) (configs : List PrivateConfig)
    (decap : EncapsulatedRequest → Option (List Nat))
    (app : List Nat → Metrics → Metrics × Option GoError)
    (sealResp : Option EncapsulatedResponse)
    (unmarshal : List Nat → Option EncapsulatedRequest)
    (r : HttpRequest) (bytes : List Nat) (req : EncapsulatedRequest)
    (out : ResponseState × Metrics)
    (hm : r.method = "POST") (hct : r.contentType = "message/ohttp-req")
    (hb : r.body = some bytes) (hu : unmarshal bytes = some req)
    (hout : out = gatewayHandler debugResponse
      [(r.urlPath,
        DefaultEncapsulationHandler.Handle configs decap app sealResp)]
      unmarshal ResponseState.empty r) :
    (matchConfig configs req = none →
      out.1.status = some 401 ∧ "config_mismatch" ∈ out.2) ∧
    ((matchConfig configs req).isSome = true → decap req = none →
      out.1.status = some 400 ∧ "decapsulation_failed" ∈ out.2) ∧
    (∀ c, configs.find? (fun x => x.keyID == req.keyID) = some c →
      ¬(c.kemID = req.kemID ∧ c.kdfID = req.kdfID ∧ c.aeadID = req.aeadID) →
      matchConfig configs req = none) := by
  obtain ⟨me, ct, pa, bo⟩ := r
  simp only at hm hct hb
  subst hm hct hb hout
  refine ⟨?_, ?_, ?_⟩
  · intro hmc
    simp [gatewayHandler, ohttpGatewayHandler, lookupEncapHandler,
      DefaultEncapsulationHandler.Handle, hu, hmc, httpError, writeBody,
      writeHeader, setHeader, fireMetric, responseStatus,
      ResponseState.empty, ErrEncapsulationToGatewayStatusCode]
  · intro hmc hdec
    simp [gatewayHandler, ohttpGatewayHandler, lookupEncapHandler,
      DefaultEncapsulationHandler.Handle, hu, hmc, hdec, httpError,
      writeBody, writeHeader, setHeader, fireMetric, responseStatus,
      ResponseState.empty, ErrEncapsulationToGatewayStatusCode]
  · intro c hfind hne
    simp only [matchConfig, hfind]
    cases hcase : (c.kemID == req.kemID && c.kdfID == req.kdfID &&
        c.aeadID == req.aeadID) with
    | false => simp [hcase]
    | true =>
        exfalso
        simp only [Bool.and_eq_true, beq_iff_eq] at hcase
        exact hne ⟨hcase.1.1, hcase.1.2, hcase.2⟩

/-- C2 witness: a concrete request whose key ID matches no stored
config yields outer 401 with the `config_mismatch` metric fired. -/
theorem encapHandler_mismatch_and_decap_codes_witness :
    (gatewayHandler false
      [("/p", DefaultEncapsulationHandler.Handle
        [⟨1, 32, 1, 1⟩] (fun _ => none) (fun _ m => (m, none)) none)]
      (fun _ => some ⟨2, 32, 1, 1⟩) ResponseState.empty
      ⟨"POST", "message/ohttp-req", "/p", some [0]⟩).1.status = some 401 := by
  have h := encapHandler_mismatch_and_decap_codes false
    [⟨1, 32, 1, 1⟩] (fun _ => none) (fun _ m => (m, none)) none
    (fun _ => some ⟨2, 32, 1, 1⟩)
    ⟨"POST", "message/ohttp-req", "/p", some [0]⟩ [0] ⟨2, 32, 1, 1⟩
    _ rfl rfl rfl rfl rfl
  exact (h.1 (by decide)).1

/-- C4: any non-POST request at a gateway endpoint yields outer 400 with
the `invalid_method` metric; any POST whose Content-Type differs from
`message/ohttp-req` (including the reserved `message/ohttp-chunked-req`,
whose handler is a stub) yields outer 400 with the
`invalid_content_type` metric. -/
theorem method_and_content_type_discipline
    (debugResponse : Bool) (handlers : List (String × EncapHandler))
    (unmarshal : List Nat → Option EncapsulatedRequest)
    (r : HttpRequest) (out : ResponseState × Metrics)
    (hout : out = gatewayHandler debugResponse handlers unmarshal
      ResponseState.empty r) :
    (r.method ≠ "POST" →
      out.1.status = some 400 ∧ "invalid_method" ∈ out.2) ∧
    (r.method = "POST" → r.contentType ≠ "message/ohttp-req" →
      out.1.status = some 400 ∧ "invalid_content_type" ∈ out.2) := by
  subst hout
  constructor
  · intro hne
    simp [gatewayHandler, hne, httpError, writeBody, writeHeader,
      fireMetric, responseStatus, ResponseState.empty]
  · intro hpost hct
    simp [gatewayHandler, hpost, hct, ohttpChunkedGatewayHandler,
      httpError, writeBody, writeHeader, fireMetric, responseStatus,
      ResponseState.empty]

/-- C4 witness: a concrete POST with the reserved chunked content type
terminates with outer 400 and the `invalid_content_type` metric. -/
theorem method_and_content_type_discipline_witness :
    (gatewayHandler false [] (fun _ => none) ResponseState.empty
      ⟨"POST", "message/ohttp-chunked-req", "/gateway", some []⟩).1.status
        = some 400 ∧
    "invalid_content_type" ∈
      (gatewayHandler false [] (fun _ => none) ResponseState.empty
        ⟨"POST", "message/ohttp-chunked-req", "/gateway", some []⟩).2 := by
  have h := method_and_content_type_discipline false [] (fun _ => none)
    ⟨"POST", "message/ohttp-chunked-req", "/gateway", some []⟩ _ rfl
  exact h.2 rfl (by decide)

/-- C6: the filtered HTTP handler (1) with an allowlist present and the
inner host not a member, fails with `GatewayTargetForbidden` and fires
`request_forbidden`, with a result independent of the outbound fetch
oracle (no fetch is performed); (2) with no allowlist, never returns
`GatewayTargetForbidden`; (3) when the allowlist permits the host (or is
absent) and the outbound fetch fails, the binary-HTTP application
handler reports the failure as `GatewayInternalServer`. -/
theorem filtered_handler_allowlist_and_fetch
    (origins : List String) (allowedOrigins : Option (List String))
    (clientDo : InnerRequest → Except String InnerResponse)
    (unmb : List Nat → Option InnerRequest)
    (encodeFails : InnerResponse → Bool)
    (req : InnerRequest) (bytes : List Nat) (metrics : Metrics)
    (e : String) :
    (origins.contains req.host = false →
      ∀ f : InnerRequest → Except String InnerResponse,
        FilteredHttpRequestHandler.Handle (some origins) f req metrics =
          (fireMetric metrics "request_forbidden",
            Except.error GoError.GatewayTargetForbidden)) ∧
    ((FilteredHttpRequestHandler.Handle none clientDo req metrics).2 ≠
      Except.error GoError.GatewayTargetForbidden) ∧
    (clientDo req = Except.error e → unmb bytes = some req →
      (allowedOrigins = none ∨
        (allowedOrigins = some origins ∧ origins.contains req.host = true)) →
      BinaryHTTPAppHandler.Handle unmb
        (FilteredHttpRequestHandler.Handle allowedOrigins clientDo)
        encodeFails bytes metrics =
        (fireMetric metrics "request_failed",
          some GoError.GatewayInternalServer)) := by
  refine ⟨?_, ?_, ?_⟩
  · intro hnm f
    have hnm2 : req.host ∉ origins := by simpa using hnm
    simp [FilteredHttpRequestHandler.Handle, hnm2]
  · cases hdo : clientDo req with
    | error e2 => simp [FilteredHttpRequestHandler.Handle, hdo]
    | ok resp => simp [FilteredHttpRequestHandler.Handle, hdo]
  · intro hdo hun hallow
    rcases hallow with hnone | ⟨hsome, hmem⟩
    · subst hnone
      simp [BinaryHTTPAppHandler.Handle, FilteredHttpRequestHandler.Handle,
        hun, hdo]
    · subst hsome
      have hmem2 : req.host ∈ origins := by simpa using hmem
      simp [BinaryHTTPAppHandler.Handle, FilteredHttpRequestHandler.Handle,
        hun, hdo, hmem2]

/-- C6 witness: concrete instance with allowlist `["allowed.example"]`
and inner host `forbidden.example`. -/
theorem filtered_handler_allowlist_and_fetch_witness :
    FilteredHttpRequestHandler.Handle (some ["allowed.example"])
      (fun _ => Except.ok ⟨200⟩) ⟨"forbidden.example"⟩ [] =
      ([ "request_forbidden" ],
        Except.error GoError.GatewayTargetForbidden) := by
  have h := filtered_handler_allowlist_and_fetch ["allowed.example"] none
    (fun _ => Except.ok ⟨200⟩) (fun _ => none) (fun _ => false)
    ⟨"forbidden.example"⟩ [] [] ""
  exact h.1 (by decide) (fun _ => Except.ok ⟨200⟩)

/-- C7: whenever the random draw satisfies the `rand.Intn` contract
(`randVal < twentyFourHours`), both key-discovery endpoints set a
`Cache-Control` header of the exact form `max-age=N, private` with
`N = twelveHours + randVal`, and `43200 ≤ N < 129600`. -/
theorem cache_control_window
    (debugResponse : Bool) (gw : List PublicConfig) (legacyKeyID : Nat)
    (rv1 rv2 : Nat) (r1 r2 : HttpRequest) (c : PublicConfig)
    (h1 : rv1 < twentyFourHours) (h2 : rv2 < twentyFourHours)
    (hc : gatewayConfigLookup gw legacyKeyID = some c) :
    (getHeader (legacyConfigHandler debugResponse gw legacyKeyID rv1
        ResponseState.empty r1).1 "Cache-Control" =
      some ("max-age=" ++ toString (twelveHours + rv1) ++ ", private") ∧
      43200 ≤ twelveHours + rv1 ∧ twelveHours + rv1 < 129600) ∧
    (getHeader (configHandler gw rv2 ResponseState.empty r2).1
        "Cache-Control" =
      some ("max-age=" ++ toString (twelveHours + rv2) ++ ", private") ∧
      43200 ≤ twelveHours + rv2 ∧ twelveHours + rv2 < 129600) := by
  simp only [twelveHours, twentyFourHours] at h1 h2 ⊢
  refine ⟨⟨?_, by omega, by omega⟩, ⟨?_, by omega, by omega⟩⟩
  · simp [legacyConfigHandler, hc, getHeader, setHeader, writeBody,
      writeHeader, ResponseState.empty, twelveHours]
  · simp [configHandler, getHeader, setHeader, writeBody, writeHeader,
      ResponseState.empty, twelveHours]

/-- C7 witness: concrete instance with a stored legacy config and a
random draw of 0. -/
theorem cache_control_window_witness :
    getHeader (configHandler [⟨0, [1]⟩] 0 ResponseState.empty
      ⟨"GET", "", "/ohttp-keys", none⟩).1 "Cache-Control" =
      some ("max-age=" ++ toString (twelveHours + 0) ++ ", private") := by
  have h := cache_control_window false [⟨0, [1]⟩] 0 0 0
    ⟨"GET", "", "/ohttp-configs", none⟩ ⟨"GET", "", "/ohttp-keys", none⟩
    ⟨0, [1]⟩ (by decide) (by decide) (by decide)
  exact h.2.1

/-- C9: the current key-discovery endpoint responds with the
concatenation of the public form of every stored config in store order
(primary first) and sets `Content-Type: application/ohttp-keys`; the
legacy endpoint responds with only the public form of the config stored
under the legacy key ID and sets no Content-Type header. -/
theorem key_discovery_bodies
    (debugResponse : Bool) (gw : List PublicConfig)
    (legacyKeyID rv1 rv2 : Nat) (r1 r2 : HttpRequest) (c : PublicConfig)
    (hc : gatewayConfigLookup gw legacyKeyID = some c)
    (out1 out2 : ResponseState × Metrics)
    (h1 : out1 = configHandler gw rv2 ResponseState.empty r1)
    (h2 : out2 = legacyConfigHandler debugResponse gw legacyKeyID rv1
      ResponseState.empty r2) :
    out1.1.body = [Chunk.raw (marshalConfigs gw)] ∧
    marshalConfigs gw = (gw.map (fun x => x.pub)).flatten ∧
    getHeader out1.1 "Content-Type" = some "application/ohttp-keys" ∧
    out2.1.body = [Chunk.raw c.pub] ∧
    getHeader out2.1 "Content-Type" = none := by
  subst h1 h2
  refine ⟨?_, rfl, ?_, ?_, ?_⟩
  · simp [configHandler, writeBody, writeHeader, setHeader,
      ResponseState.empty]
  · simp [configHandler, getHeader, setHeader, writeBody, writeHeader,
      ResponseState.empty]
  · simp [legacyConfigHandler, hc, writeBody, writeHeader, setHeader,
      ResponseState.empty]
  · simp [legacyConfigHandler, hc, getHeader, setHeader, writeBody,
      writeHeader, ResponseState.empty]

/-- C9 witness: concrete two-config store, primary first. -/
theorem key_discovery_bodies_witness :
    (configHandler [⟨1, [10, 11]⟩, ⟨0, [20]⟩] 0 ResponseState.empty
      ⟨"GET", "", "/ohttp-keys", none⟩).1.body =
      [Chunk.raw [10, 11, 20]] ∧
    (legacyConfigHandler false [⟨1, [10, 11]⟩, ⟨0, [20]⟩] 0 0
      ResponseState.empty ⟨"GET", "", "/ohttp-configs", none⟩).1.body =
      [Chunk.raw [20]] := by
  have h := key_discovery_bodies false [⟨1, [10, 11]⟩, ⟨0, [20]⟩] 0 0 0
    ⟨"GET", "", "/ohttp-keys", none⟩ ⟨"GET", "", "/ohttp-configs", none⟩
    ⟨0, [20]⟩ (by decide) _ _ rfl rfl
  exact ⟨h.1, h.2.2.2.1⟩

/-- C10: when no config is stored under the legacy key ID, the legacy
key-discovery endpoint responds with outer 500, fires exactly the
`configs_unavailable` metric (plus the method-prefixed 500 status
label), writes only the error-text body (no config bytes) and no
Cache-Control header; and this is the only failure path: the current
endpoint always responds 200, and the legacy endpoint responds 200
whenever the lookup succeeds. -/
theorem legacy_config_unavailable_500
    (debugResponse : Bool) (gw : List PublicConfig)
    (legacyKeyID rv : Nat) (r : HttpRequest)
    (out : ResponseState × Metrics)
    (hnone : gatewayConfigLookup gw legacyKeyID = none)
    (hout : out = legacyConfigHandler debugResponse gw legacyKeyID rv
      ResponseState.empty r) :
    out.1.status = some 500 ∧
    out.2 = ["configs_unavailable", r.method ++ "_response_status_500"] ∧
    out.1.body = [Chunk.msg
      (if debugResponse then "Config unavailable"
       else "Internal Server Error")] ∧
    getHeader out.1 "Cache-Control" = none ∧
    (∀ gw2 rv2 r2, (configHandler gw2 rv2 ResponseState.empty r2).1.status
      = some 200) ∧
    (∀ (d2 : Bool) gw2 kid c2 rv2 r2,
      gatewayConfigLookup gw2 kid = some c2 →
      (legacyConfigHandler d2 gw2 kid rv2 ResponseState.empty r2).1.status
        = some 200) := by
  subst hout
  refine ⟨?_, ?_, ?_, ?_, ?_, ?_⟩
  · simp [legacyConfigHandler, hnone, httpError, writeBody, writeHeader,
      ResponseState.empty]
  · simp only [legacyConfigHandler, hnone, httpError, responseStatus,
      fireMetric]
    rw [String.append_assoc]
    rfl
  · cases debugResponse with
    | false =>
        simp only [legacyConfigHandler, hnone]
        rfl
    | true =>
        simp only [legacyConfigHandler, hnone]
        rfl
  · simp [legacyConfigHandler, hnone, httpError, getHeader, writeBody,
      writeHeader, ResponseState.empty]
  · intro gw2 rv2 r2
    simp [configHandler, writeBody, writeHeader, setHeader,
      ResponseState.empty]
  · intro d2 gw2 kid c2 rv2 r2 hc2
    simp [legacyConfigHandler, hc2, writeBody, writeHeader, setHeader,
      ResponseState.empty]

/-- C10 witness: concrete empty store, so the legacy lookup fails. -/
theorem legacy_config_unavailable_500_witness :
    (legacyConfigHandler false [] 7 0 ResponseState.empty
      ⟨"GET", "", "/ohttp-configs", none⟩).1.status = some 500 := by
  have h := legacy_config_unavailable_500 false [] 7 0
    ⟨"GET", "", "/ohttp-configs", none⟩ _ (by decide) rfl
  exact h.1
